import Mathlib

/-!
Verification of the proxy-rotation core of a request-forwarding backend.

The development shallowly embeds three components of the source:
* `proxyRotator.js` — the `ProxyRotator` class (pool, per-period usage set,
  per-cycle failure set, 2-day period accounting, random selection);
* `proxyLoader.js` / `server.js` — `parseProxy`, the proxy-address parser;
* `server.js` — `makeProxyRequest`, the retry orchestrator.

Modelling conventions:
* JS strings are lists of characters (`Str`); `String.prototype.split`,
  `trim`, `startsWith` and `Array.prototype.join` are given explicit models.
* Calendar dates (the `YYYY-MM-DD` strings of `getCurrentDate`) are modelled
  as day numbers (`ℕ`): the source compares midnight-aligned dates and takes
  `Math.max(0, Math.floor(diff / day))`, which is exactly truncated natural
  subtraction of day numbers.
* `Math.floor(Math.random() * k)` — an arbitrary index below `k` — is
  modelled by `r % k` for an arbitrary `r : ℕ`; the orchestrator draws a
  fresh `r` per loop iteration from an arbitrary stream `rand : ℕ → ℕ`.
* The JS `Set` objects are `Finset ℕ`; mutation is explicit state passing.
* The transport collaborator (axios through the proxy agent) is an arbitrary
  function from the attempt number to an outcome: either a thrown error
  (connection/timeout/protocol failure) or a response with a status code.
-/

/-- A JS string, modelled as its sequence of characters. -/
abbrev Str := List Char

/-- Credentials attached to a proxy (`auth` field in the source). -/
structure ProxyAuth where
  username : Str
  password : Str
  deriving DecidableEq, Repr

/-- A proxy entry: `{host, port, auth}` as produced by `parseProxy`. -/
structure Proxy where
  host : Str
  port : Str
  auth : Option ProxyAuth
  deriving DecidableEq, Repr

/-- The mutable state of the `ProxyRotator` class: the pool, the set of pool
indices that failed during the current request cycle, the set of indices used
in the current 2-day period, and the day the period started
(`periodStartDate`, a day number standing for the `YYYY-MM-DD` string). -/
structure ProxyRotator where
  proxies : List Proxy
  failedProxies : Finset ℕ
  usedProxiesToday : Finset ℕ
  periodStartDate : ℕ
  deriving DecidableEq

/-- `getDaysSincePeriodStart`: the source computes
`Math.max(0, Math.floor((today - start) / day))` on midnight-aligned dates,
which is truncated subtraction of day numbers. -/
def getDaysSincePeriodStart (today : ℕ) (s : ProxyRotator) : ℕ :=
  today - s.periodStartDate

/-- `checkAndResetDailyUsage`: no-op on an empty pool; clears the usage set
and restarts the period after 2 elapsed days; otherwise clears the usage set
when it already covers the whole pool (`size >= length`). -/
def checkAndResetDailyUsage (today : ℕ) (s : ProxyRotator) : ProxyRotator :=
  if s.proxies.length = 0 then s
  else if 2 ≤ getDaysSincePeriodStart today s then
    { s with usedProxiesToday := ∅, periodStartDate := today }
  else if s.proxies.length ≤ s.usedProxiesToday.card ∧ 0 < s.proxies.length then
    { s with usedProxiesToday := ∅ }
  else s

/-- `Math.floor(Math.random() * list.length)` indexing, guarded by the
source's `length === 0` checks: picks the element at `r % length`. -/
def pickRandom (r : ℕ) (l : List ℕ) : Option ℕ :=
  if h : l.length = 0 then none
  else some (l.get ⟨r % l.length, Nat.mod_lt r (Nat.pos_of_ne_zero h)⟩)

/-- The default `Proxy` used only to give `List.getD` a placeholder; the
selection index is always in range so it is never produced. -/
def dfltProxy : Proxy := ⟨[], [], none⟩

/-- The `availableProxies` filter chain of `getRandomProxy`: indices of the
pool neither used in the current period nor failed in the current cycle. -/
def availableIdx (s1 : ProxyRotator) : List ℕ :=
  (List.range s1.proxies.length).filter
    (fun i => decide (i ∉ s1.usedProxiesToday) && decide (i ∉ s1.failedProxies))

/-- The `fallbackProxies` filter chain of `getRandomProxy`: indices of the
pool not failed in the current cycle (the usage quota is ignored). -/
def fallbackIdx (s1 : ProxyRotator) : List ℕ :=
  (List.range s1.proxies.length).filter (fun i => decide (i ∉ s1.failedProxies))

/-- `getRandomProxy` (the spec's `selectProxy`): returns `null` on an empty
pool; runs the period reset; filters indices neither used this period nor
failed this cycle; picks one at random, falling back to the not-failed
indices when that set is empty; returns `null` when even the fallback set is
empty.  The returned pair is (selection, updated rotator state). -/
def getRandomProxy (today r : ℕ) (s : ProxyRotator) :
    Option (Proxy × ℕ) × ProxyRotator :=
  if s.proxies.length = 0 then (none, s)
  else
    match pickRandom r (availableIdx (checkAndResetDailyUsage today s)) with
    | some i =>
      (some ((checkAndResetDailyUsage today s).proxies.getD i dfltProxy, i),
        checkAndResetDailyUsage today s)
    | none =>
      match pickRandom r (fallbackIdx (checkAndResetDailyUsage today s)) with
      | some i =>
        (some ((checkAndResetDailyUsage today s).proxies.getD i dfltProxy, i),
          checkAndResetDailyUsage today s)
      | none => (none, checkAndResetDailyUsage today s)

/-- `markUsedToday`: records a successful use; bounds-checked no-op (with a
console warning) outside `0 <= index < proxies.length`.  The index is an
integer because stale or negative indices are exactly the guarded case. -/
def markUsedToday (proxyIndex : ℤ) (s : ProxyRotator) : ProxyRotator :=
  if 0 ≤ proxyIndex ∧ proxyIndex < (s.proxies.length : ℤ) then
    { s with usedProxiesToday := insert proxyIndex.toNat s.usedProxiesToday }
  else s

/-- `markFailed`: records a failure for the current cycle; same bounds check
as `markUsedToday`. -/
def markFailed (proxyIndex : ℤ) (s : ProxyRotator) : ProxyRotator :=
  if 0 ≤ proxyIndex ∧ proxyIndex < (s.proxies.length : ℤ) then
    { s with failedProxies := insert proxyIndex.toNat s.failedProxies }
  else s

/-- `resetFailedProxies`: clears the per-cycle failure set. -/
def resetFailedProxies (s : ProxyRotator) : ProxyRotator :=
  { s with failedProxies := ∅ }

/-- `getRemainingProxiesCount`: runs the period reset, then returns
`max(0, total - used)` together with the updated state (the source method
mutates `this` via `checkAndResetDailyUsage`). -/
def getRemainingProxiesCount (today : ℕ) (s : ProxyRotator) : ℕ × ProxyRotator :=
  if (checkAndResetDailyUsage today s).proxies.length = 0 then
    (0, checkAndResetDailyUsage today s)
  else
    ((checkAndResetDailyUsage today s).proxies.length
      - (checkAndResetDailyUsage today s).usedProxiesToday.card,
      checkAndResetDailyUsage today s)

/-- `formatProxy`: `[user:pass@]host:port` (the non-null branch; the model's
`Proxy` is never null). -/
def formatProxy (p : Proxy) : Str :=
  (match p.auth with
    | some a => a.username ++ [':'] ++ a.password ++ ['@']
    | none => ([] : Str)) ++ p.host ++ [':'] ++ p.port

/-- `updateProxies` (the spec's `replacePool`): swaps the pool and resets the
usage set, the failure set and the period start. -/
def updateProxies (today : ℕ) (newProxies : List Proxy) (s : ProxyRotator) :
    ProxyRotator :=
  { s with proxies := newProxies, usedProxiesToday := ∅, failedProxies := ∅,
           periodStartDate := today }

/-! ## The proxy-address parser (`parseProxy` in `proxyLoader.js` / `server.js`) -/

/-- The whitespace characters stripped by `String.prototype.trim` (the ASCII
ones; the address strings at issue contain no exotic Unicode whitespace). -/
def jsWhitespace (c : Char) : Bool :=
  c == ' ' || c == '\t' || c == '\n' || c == '\r' || c == '\x0b' || c == '\x0c'

/-- `String.prototype.trim`: strip whitespace from both ends. -/
def trimString (s : Str) : Str :=
  ((s.dropWhile jsWhitespace).reverse.dropWhile jsWhitespace).reverse

/-- `String.prototype.split(sep)` for a one-character separator: splitting
the empty string gives `[""]`, and separators at the ends produce empty
fields, exactly as in JS. -/
def splitOnChar (sep : Char) : Str → List Str
  | [] => [[]]
  | c :: cs =>
    match splitOnChar sep cs with
    | [] => [[]]
    | r :: rs => if c = sep then [] :: r :: rs else (c :: r) :: rs

/-- The characters of the literal the source tests with
`startsWith('http://')`. -/
def schemeHttp : Str := ['h', 't', 't', 'p', ':', '/', '/']

/-- The characters of the literal the source tests with
`startsWith('https://')`. -/
def schemeHttps : Str := ['h', 't', 't', 'p', 's', ':', '/', '/']

/-- The characters of the literal the source tests with
`startsWith('https')` when choosing the default port. -/
def schemeHttpsShort : Str := ['h', 't', 't', 'p', 's']

/-- The pieces of a parsed URL the source reads off the JS `URL` object. -/
structure UrlParts where
  username : Str
  password : Str
  hostname : Str
  port : Str
  deriving DecidableEq, Repr

/-- Model of the JS `URL` builtin (an external platform collaborator, not
repository code) restricted to the `scheme://[user:pass@]host[:port][/...]`
shapes the loader feeds it: the authority runs to the first `/`, `?` or `#`;
userinfo is everything before the last `@`, split at its first `:` into
username and password; the host/port split is at the last `:`; an absent or
empty port reads back as `""`.  Percent-decoding and host canonicalisation
are not modelled (the claims never reach them).  A URL with an empty host
makes the constructor throw, which `parseProxy` catches and turns into
`null`; that is modelled by returning `none` here. -/
def parseUrlModel (afterScheme : Str) : Option UrlParts :=
  let authority := afterScheme.takeWhile
    (fun c => !(c == '/' || c == '?' || c == '#'))
  let atParts := splitOnChar '@' authority
  let userinfo :=
    if atParts.length ≤ 1 then ([] : Str)
    else List.intercalate ['@'] (atParts.dropLast)
  let hostport := atParts.getLastD []
  let username := userinfo.takeWhile (fun c => !(c == ':'))
  let password :=
    if username.length < userinfo.length then userinfo.drop (username.length + 1)
    else ([] : Str)
  let colonParts := splitOnChar ':' hostport
  let hostname :=
    if colonParts.length ≤ 1 then hostport
    else List.intercalate [':'] (colonParts.dropLast)
  let port := if colonParts.length ≤ 1 then ([] : Str) else colonParts.getLastD []
  if hostname = [] then none
  else some ⟨username, password, hostname, port⟩

/-- `parseProxy`: trim; reject the empty line; URL form for strings starting
with `http://` or `https://` (port defaulting to `80`/`443`, auth only when
both username and password are non-empty); otherwise split on `:` requiring
at least host and port, with fields 3.. forming username and a `:`-rejoined
password; finally require non-empty host and port. -/
def parseProxy (raw : Str) : Option Proxy :=
  let s := trimString raw
  if s = [] then none
  else if schemeHttp.isPrefixOf s || schemeHttps.isPrefixOf s then
    let isHttps := schemeHttpsShort.isPrefixOf s
    let afterScheme := s.drop (if schemeHttps.isPrefixOf s then 8 else 7)
    match parseUrlModel afterScheme with
    | none => none
    | some u =>
      let port :=
        if u.port = [] then
          (if isHttps then ['4', '4', '3'] else ['8', '0'])
        else u.port
      let auth :=
        if u.username ≠ [] ∧ u.password ≠ [] then
          some (⟨u.username, u.password⟩ : ProxyAuth)
        else none
      if u.hostname ≠ [] ∧ port ≠ [] then some ⟨u.hostname, port, auth⟩ else none
  else
    let parts := splitOnChar ':' s
    if 2 ≤ parts.length then
      let host := parts.getD 0 []
      let port := parts.getD 1 []
      let auth :=
        if 4 ≤ parts.length then
          some (⟨parts.getD 2 [], List.intercalate [':'] (parts.drop 3)⟩ : ProxyAuth)
        else none
      if host ≠ [] ∧ port ≠ [] then some ⟨host, port, auth⟩ else none
    else none

/-! ## The retry orchestrator (`makeProxyRequest` in `server.js`) -/

/-- One transport attempt, as the orchestrator's `try` block observes it:
axios either throws (connection, timeout or protocol failure) or resolves
with a response carrying a status code (`validateStatus: () => true`). -/
inductive TransportOutcome where
  | throwErr (msg : String)
  | resp (status : ℕ)
  deriving DecidableEq

/-- The outcome of `makeProxyRequest`: success with the upstream status and
the serving proxy's descriptor, or one of the fatal error kinds thrown by
the source, each carrying its message string. -/
inductive ReqResult where
  | success (status : ℕ) (proxyUsed : Str)
  | noProxiesConfigured (msg : String)
  | maxAttemptsExceeded (msg : String)
  | allProxiesFailed (msg : String)
  | noProxiesAvailable (msg : String)
  deriving DecidableEq

/-- `lastError?.message` in a template literal: `"undefined"` when no error
has been recorded yet. -/
def optMsg : Option String → String
  | some m => m
  | none => "undefined"

/-- The `MaxAttemptsExceeded` message of the source. -/
def maxAttemptsMsg (maxAttempts : ℕ) (lastError : Option String) : String :=
  "Request failed after " ++ toString maxAttempts ++ " attempts. Last error: "
    ++ optMsg lastError

/-- The `AllProxiesFailed` message of the source. -/
def allFailedMsg (lastError : Option String) : String :=
  "All proxies failed. Last error: " ++ optMsg lastError

/-- The error thrown inside the `try` block on a non-2xx status. -/
def statusFailMsg (status : ℕ) : String :=
  "Request failed with status " ++ toString status

/-- The `NoProxiesConfigured` message of the source. -/
def noProxiesConfiguredMsg : String :=
  "No proxies configured. Please add proxies via POST /api/proxies endpoint"

/-- The residual `No proxies available` message of the source. -/
def noProxiesAvailableMsg : String :=
  "No proxies available. Please check your proxy configuration."

/-- What one `makeProxyRequest` call produces in the model: the result, the
final rotator state, the number of transport invocations performed, and the
final value of the `lastError` variable. -/
structure LoopOut where
  result : ReqResult
  state : ProxyRotator
  calls : ℕ
  lastErr : Option String
  deriving DecidableEq

/-- Accounts for the one transport invocation a loop iteration performed
before recursing. -/
def bumpCalls (o : LoopOut) : LoopOut :=
  { o with calls := o.calls + 1 }

/-- The `while (true)` retry loop of `makeProxyRequest`, entered with the
attempt counter at `attempt` (the source increments it at the top of each
iteration, so the current iteration runs with `attempt + 1`).  Mirrors the
source line by line: the `maxAttempts` guard; selection via
`getRandomProxy`; on `null` selection the `getRemainingProxiesCount` /
`failedProxies.size` checks (continue after clearing failures, throw
`AllProxiesFailed`, or throw the residual `No proxies available`); otherwise
the logging call to `getRemainingProxiesCount` (which mutates state through
`checkAndResetDailyUsage`), then the transport attempt: a 2xx response marks
the index used and returns; a non-2xx response marks it failed, throws, and
the `catch` block marks it failed again and records the error; a thrown
transport error is recorded and the loop continues. -/
def reqLoop (transport : ℕ → TransportOutcome) (rand : ℕ → ℕ)
    (today total maxAttempts : ℕ) (s : ProxyRotator)
    (lastError : Option String) (attempt : ℕ) : LoopOut :=
  if _hA : maxAttempts < attempt + 1 then
    ⟨.maxAttemptsExceeded (maxAttemptsMsg maxAttempts lastError), s, 0, lastError⟩
  else
    match getRandomProxy today (rand (attempt + 1)) s with
    | (none, s1) =>
      if (getRemainingProxiesCount today s1).1 = 0 ∧
          (getRemainingProxiesCount today s1).2.failedProxies.card < total then
        reqLoop transport rand today total maxAttempts
          (resetFailedProxies (getRemainingProxiesCount today s1).2)
          lastError (attempt + 1)
      else if total ≤ (getRemainingProxiesCount today s1).2.failedProxies.card then
        ⟨.allProxiesFailed (allFailedMsg lastError),
          (getRemainingProxiesCount today s1).2, 0, lastError⟩
      else
        ⟨.noProxiesAvailable noProxiesAvailableMsg,
          (getRemainingProxiesCount today s1).2, 0, lastError⟩
    | (some (p, i), s1) =>
      match transport (attempt + 1) with
      | .resp status =>
        if 200 ≤ status ∧ status < 300 then
          ⟨.success status (formatProxy p),
            markUsedToday (i : ℤ) (getRemainingProxiesCount today s1).2, 1, lastError⟩
        else
          bumpCalls (reqLoop transport rand today total maxAttempts
            (markFailed (i : ℤ) (markFailed (i : ℤ)
              (getRemainingProxiesCount today s1).2))
            (some (statusFailMsg status)) (attempt + 1))
      | .throwErr m =>
        bumpCalls (reqLoop transport rand today total maxAttempts
          (markFailed (i : ℤ) (getRemainingProxiesCount today s1).2)
          (some m) (attempt + 1))
termination_by maxAttempts + 1 - attempt
decreasing_by all_goals omega

/-- `makeProxyRequest`: reset the failure cycle, fail fast on an empty pool,
then run the retry loop with `maxAttempts = totalProxies * 2`. -/
def makeProxyRequest (transport : ℕ → TransportOutcome) (rand : ℕ → ℕ)
    (today : ℕ) (s : ProxyRotator) : LoopOut :=
  let s0 := resetFailedProxies s
  if s0.proxies.length = 0 then
    ⟨.noProxiesConfigured noProxiesConfiguredMsg, s0, 0, none⟩
  else
    reqLoop transport rand today s0.proxies.length (s0.proxies.length * 2) s0 none 0

/-! ## Basic lemmas about the rotator's state transitions -/

theorem checkAndReset_proxies (today : ℕ) (s : ProxyRotator) :
    (checkAndResetDailyUsage today s).proxies = s.proxies := by
  unfold checkAndResetDailyUsage
  split_ifs <;> rfl

theorem checkAndReset_failed (today : ℕ) (s : ProxyRotator) :
    (checkAndResetDailyUsage today s).failedProxies = s.failedProxies := by
  unfold checkAndResetDailyUsage
  split_ifs <;> rfl

theorem checkAndReset_start_recent (today : ℕ) (s : ProxyRotator)
    (hn : s.proxies.length ≠ 0) :
    today - (checkAndResetDailyUsage today s).periodStartDate < 2 := by
  unfold checkAndResetDailyUsage getDaysSincePeriodStart
  split_ifs with h1 h2 h3
  · exact absurd h1 hn
  · dsimp only
    omega
  · dsimp only
    omega
  · omega

theorem checkAndReset_used_of_card_ge (today : ℕ) (s : ProxyRotator)
    (hn : s.proxies.length ≠ 0)
    (h : s.proxies.length ≤ s.usedProxiesToday.card) :
    (checkAndResetDailyUsage today s).usedProxiesToday = ∅ := by
  unfold checkAndResetDailyUsage
  split_ifs with h1 h2 h3
  · exact absurd h1 hn
  · rfl
  · rfl
  · exact absurd ⟨h, Nat.pos_of_ne_zero hn⟩ h3

theorem checkAndReset_used_of_len_one (today : ℕ) (s : ProxyRotator)
    (h1 : s.proxies.length = 1) :
    (checkAndResetDailyUsage today s).usedProxiesToday = ∅ := by
  rcases Nat.eq_zero_or_pos s.usedProxiesToday.card with hc | hc
  · have hu : s.usedProxiesToday = ∅ := Finset.card_eq_zero.mp hc
    unfold checkAndResetDailyUsage
    split_ifs <;> simp [hu]
  · exact checkAndReset_used_of_card_ge today s (by omega) (by omega)

theorem checkAndReset_fixed (today : ℕ) (s : ProxyRotator)
    (hn : s.proxies.length ≠ 0) (hu : s.usedProxiesToday = ∅)
    (hd : today - s.periodStartDate < 2) :
    checkAndResetDailyUsage today s = s := by
  unfold checkAndResetDailyUsage getDaysSincePeriodStart
  rw [if_neg hn, if_neg (by omega : ¬ 2 ≤ today - s.periodStartDate), if_neg]
  intro hcon
  rw [hu] at hcon
  obtain ⟨hA, hB⟩ := hcon
  simp only [Finset.card_empty, Nat.le_zero] at hA
  omega

theorem checkAndReset_of_days_ge (today : ℕ) (s : ProxyRotator)
    (hn : s.proxies.length ≠ 0) (hd : 2 ≤ getDaysSincePeriodStart today s) :
    checkAndResetDailyUsage today s =
      { s with usedProxiesToday := ∅, periodStartDate := today } := by
  unfold checkAndResetDailyUsage
  rw [if_neg hn, if_pos hd]

theorem markUsedToday_proxies (i : ℤ) (s : ProxyRotator) :
    (markUsedToday i s).proxies = s.proxies := by
  unfold markUsedToday
  split_ifs <;> rfl

theorem markFailed_proxies (i : ℤ) (s : ProxyRotator) :
    (markFailed i s).proxies = s.proxies := by
  unfold markFailed
  split_ifs <;> rfl

theorem markFailed_used (i : ℤ) (s : ProxyRotator) :
    (markFailed i s).usedProxiesToday = s.usedProxiesToday := by
  unfold markFailed
  split_ifs <;> rfl

theorem markFailed_start (i : ℤ) (s : ProxyRotator) :
    (markFailed i s).periodStartDate = s.periodStartDate := by
  unfold markFailed
  split_ifs <;> rfl

theorem resetFailed_proxies (s : ProxyRotator) :
    (resetFailedProxies s).proxies = s.proxies := rfl

theorem markFailed_failed_of_inbounds (i : ℕ) (s : ProxyRotator)
    (h : i < s.proxies.length) :
    (markFailed (i : ℤ) s).failedProxies = insert i s.failedProxies := by
  unfold markFailed
  rw [if_pos]
  · simp
  · exact ⟨Int.ofNat_nonneg i, by exact_mod_cast h⟩

/-! ## Lemmas about random selection -/

theorem pickRandom_mem (r : ℕ) (l : List ℕ) (x : ℕ)
    (h : pickRandom r l = some x) : x ∈ l := by
  unfold pickRandom at h
  split_ifs at h with hl
  rw [← Option.some_inj.mp h]
  exact List.get_mem l _ _

theorem pickRandom_eq_none_iff (r : ℕ) (l : List ℕ) :
    pickRandom r l = none ↔ l = [] := by
  unfold pickRandom
  split_ifs with hl
  · simp [List.length_eq_zero.mp hl]
  · constructor
    · intro h
      exact absurd h (by simp)
    · intro h
      exact absurd (by simp [h] : l.length = 0) hl

theorem mem_availableIdx (s1 : ProxyRotator) (i : ℕ) :
    i ∈ availableIdx s1 ↔
      i < s1.proxies.length ∧ i ∉ s1.usedProxiesToday ∧ i ∉ s1.failedProxies := by
  unfold availableIdx
  simp [List.mem_filter, and_assoc]

theorem mem_fallbackIdx (s1 : ProxyRotator) (i : ℕ) :
    i ∈ fallbackIdx s1 ↔ i < s1.proxies.length ∧ i ∉ s1.failedProxies := by
  unfold fallbackIdx
  simp [List.mem_filter]

theorem fallbackIdx_eq_nil_iff (s1 : ProxyRotator) :
    fallbackIdx s1 = [] ↔ ∀ j, j < s1.proxies.length → j ∈ s1.failedProxies := by
  unfold fallbackIdx
  rw [List.filter_eq_nil_iff]
  simp

theorem availableIdx_eq_nil_of_all_failed (s1 : ProxyRotator)
    (h : ∀ j, j < s1.proxies.length → j ∈ s1.failedProxies) :
    availableIdx s1 = [] := by
  unfold availableIdx
  rw [List.filter_eq_nil_iff]
  intro a ha
  simp only [List.mem_range] at ha
  simp [h a ha]

theorem getRandomProxy_snd (today r : ℕ) (s : ProxyRotator)
    (hn : s.proxies.length ≠ 0) :
    (getRandomProxy today r s).2 = checkAndResetDailyUsage today s := by
  unfold getRandomProxy
  rw [if_neg hn]
  rcases h1 : pickRandom r (availableIdx (checkAndResetDailyUsage today s)) with _ | i
  · rcases h2 : pickRandom r (fallbackIdx (checkAndResetDailyUsage today s)) with _ | j
    · simp [h1, h2]
    · simp [h1, h2]
  · simp [h1]

theorem getRandomProxy_some_spec (today r : ℕ) (s : ProxyRotator) (p : Proxy)
    (i : ℕ) (h : (getRandomProxy today r s).1 = some (p, i)) :
    i < s.proxies.length ∧ i ∉ s.failedProxies := by
  unfold getRandomProxy at h
  by_cases hn : s.proxies.length = 0
  · rw [if_pos hn] at h
    exact absurd h (by simp)
  · rw [if_neg hn] at h
    rcases h1 : pickRandom r (availableIdx (checkAndResetDailyUsage today s)) with _ | j
    · rcases h2 : pickRandom r (fallbackIdx (checkAndResetDailyUsage today s)) with _ | k
      · simp [h1, h2] at h
      · simp only [h1, h2] at h
        obtain ⟨-, hk⟩ := Prod.mk.injEq .. ▸ Option.some_inj.mp h
        have hm := (mem_fallbackIdx _ _).mp (pickRandom_mem _ _ _ h2)
        rw [checkAndReset_proxies, checkAndReset_failed] at hm
        exact hk ▸ hm
    · simp only [h1] at h
      obtain ⟨-, hj⟩ := Prod.mk.injEq .. ▸ Option.some_inj.mp h
      have hm := (mem_availableIdx _ _).mp (pickRandom_mem _ _ _ h1)
      rw [checkAndReset_proxies, checkAndReset_failed] at hm
      exact hj ▸ ⟨hm.1, hm.2.2⟩

theorem getRandomProxy_none_iff (today r : ℕ) (s : ProxyRotator) :
    (getRandomProxy today r s).1 = none ↔
      s.proxies.length = 0 ∨ ∀ j, j < s.proxies.length → j ∈ s.failedProxies := by
  by_cases hn : s.proxies.length = 0
  · simp [getRandomProxy, hn]
  · unfold getRandomProxy
    rw [if_neg hn]
    constructor
    · intro h
      rcases h1 : pickRandom r (availableIdx (checkAndResetDailyUsage today s))
          with _ | j
      · rcases h2 : pickRandom r (fallbackIdx (checkAndResetDailyUsage today s))
            with _ | k
        · refine Or.inr ?_
          have hnil := (pickRandom_eq_none_iff r _).mp h2
          have := (fallbackIdx_eq_nil_iff _).mp hnil
          rwa [checkAndReset_proxies, checkAndReset_failed] at this
        · rw [h1, h2] at h
          exact absurd h (by simp)
      · rw [h1] at h
        exact absurd h (by simp)
    · intro h
      rcases h with h | h
      · exact absurd h hn
      · have hall : ∀ j, j < (checkAndResetDailyUsage today s).proxies.length →
            j ∈ (checkAndResetDailyUsage today s).failedProxies := by
          rw [checkAndReset_proxies, checkAndReset_failed]
          exact h
        have h1 : pickRandom r (availableIdx (checkAndResetDailyUsage today s)) = none := by
          rw [pickRandom_eq_none_iff]
          exact availableIdx_eq_nil_of_all_failed _ hall
        have h2 : pickRandom r (fallbackIdx (checkAndResetDailyUsage today s)) = none := by
          rw [pickRandom_eq_none_iff, fallbackIdx_eq_nil_iff]
          exact hall
        simp [h1, h2]

/-! ## Claims about the rotator -/

/-- Claim C1: for every rotation state over a non-empty pool, whenever
`getRandomProxy` (the spec's `selectProxy`) returns a selection, the
returned index is not in `failedThisCycle` — both the eligible-set path and
the fallback path filter out failed indices — and when every pool index is
in `failedThisCycle` the call returns `None`. -/
theorem C1_selectProxy_avoids_failed (today r : ℕ) (s : ProxyRotator)
    (hn : s.proxies.length ≠ 0) :
    (∀ p i, (getRandomProxy today r s).1 = some (p, i) → i ∉ s.failedProxies) ∧
    ((∀ j, j < s.proxies.length → j ∈ s.failedProxies) →
      (getRandomProxy today r s).1 = none) := by
  constructor
  · intro p i h
    exact (getRandomProxy_some_spec today r s p i h).2
  · intro hall
    exact (getRandomProxy_none_iff today r s).mpr (Or.inr hall)

/-- Witness for C1: a one-proxy pool with nothing failed selects index 0,
which is indeed not failed; with index 0 failed the selection is `None`. -/
theorem C1_witness :
    (0 : ℕ) ∉ (⟨[⟨['h'], ['8', '0'], none⟩], ∅, ∅, 0⟩ : ProxyRotator).failedProxies ∧
    (getRandomProxy 0 0 ⟨[⟨['h'], ['8', '0'], none⟩], {0}, ∅, 0⟩).1 = none :=
  ⟨(C1_selectProxy_avoids_failed 0 0 ⟨[⟨['h'], ['8', '0'], none⟩], ∅, ∅, 0⟩
        (by decide)).1 ⟨['h'], ['8', '0'], none⟩ 0 (by decide),
    (C1_selectProxy_avoids_failed 0 0 ⟨[⟨['h'], ['8', '0'], none⟩], {0}, ∅, 0⟩
        (by decide)).2 (by decide)⟩

/-- Claim C3: over a non-empty pool, if `usedThisPeriod` contains every pool
index, fewer than 2 days have elapsed since `periodStart`, and not every
index is in `failedThisCycle`, then the next `getRandomProxy` call clears
`usedThisPeriod` and returns some selection rather than `None`. -/
theorem C3_quota_exhaustion_reset (today r : ℕ) (s : ProxyRotator)
    (hn : s.proxies.length ≠ 0)
    (hused : ∀ j, j < s.proxies.length → j ∈ s.usedProxiesToday)
    (hdays : getDaysSincePeriodStart today s < 2)
    (hfail : ∃ j, j < s.proxies.length ∧ j ∉ s.failedProxies) :
    (getRandomProxy today r s).2.usedProxiesToday = ∅ ∧
    ∃ p i, (getRandomProxy today r s).1 = some (p, i) := by
  have hcard : s.proxies.length ≤ s.usedProxiesToday.card := by
    have hsub : Finset.range s.proxies.length ⊆ s.usedProxiesToday :=
      fun j hj => hused j (Finset.mem_range.mp hj)
    calc s.proxies.length = (Finset.range s.proxies.length).card :=
          (Finset.card_range _).symm
      _ ≤ s.usedProxiesToday.card := Finset.card_le_card hsub
  have hclear : (checkAndResetDailyUsage today s).usedProxiesToday = ∅ :=
    checkAndReset_used_of_card_ge today s hn hcard
  refine ⟨by rw [getRandomProxy_snd today r s hn]; exact hclear, ?_⟩
  obtain ⟨j, hj, hjf⟩ := hfail
  have hmem : j ∈ availableIdx (checkAndResetDailyUsage today s) := by
    rw [mem_availableIdx, checkAndReset_proxies, checkAndReset_failed, hclear]
    exact ⟨hj, by simp, hjf⟩
  unfold getRandomProxy
  rw [if_neg hn]
  rcases h1 : pickRandom r (availableIdx (checkAndResetDailyUsage today s)) with _ | k
  · exact absurd ((pickRandom_eq_none_iff r _).mp h1 ▸ hmem) (List.not_mem_nil j)
  · simp [h1]

/-- Witness for C3: one proxy, index 0 already used this period, nothing
failed, same-day period start: the call clears the usage set and selects. -/
theorem C3_witness :
    (getRandomProxy 0 0 ⟨[⟨['h'], ['8', '0'], none⟩], ∅, {0}, 0⟩).2.usedProxiesToday = ∅ ∧
    ∃ p i, (getRandomProxy 0 0 ⟨[⟨['h'], ['8', '0'], none⟩], ∅, {0}, 0⟩).1 = some (p, i) :=
  C3_quota_exhaustion_reset 0 0 ⟨[⟨['h'], ['8', '0'], none⟩], ∅, {0}, 0⟩
    (by decide) (by decide) (by decide) ⟨0, by decide, by decide⟩

/-- Counterexample to claim C4 as stated: the claim quantifies over every
rotation state, "regardless of the pool's contents", but both
`getRandomProxy` and `checkAndResetDailyUsage` return early on an empty
pool, so with an empty pool and a `periodStart` two days in the past the
call leaves `periodStart` unchanged instead of setting it to today. -/
theorem C4_counterexample :
    2 ≤ getDaysSincePeriodStart 2 (⟨[], ∅, ∅, 0⟩ : ProxyRotator) ∧
    (getRandomProxy 2 0 (⟨[], ∅, ∅, 0⟩ : ProxyRotator)).2.periodStartDate ≠ 2 := by
  decide

/-- Claim C4, amended to non-empty pools: for every rotation state with a
non-empty pool in which at least 2 days have elapsed since `periodStart`, a
`getRandomProxy` call clears `usedThisPeriod` and sets `periodStart` to
today, regardless of how many indices `usedThisPeriod` contains. -/
theorem C4_period_rollover (today r : ℕ) (s : ProxyRotator)
    (hn : s.proxies.length ≠ 0)
    (hd : 2 ≤ getDaysSincePeriodStart today s) :
    (getRandomProxy today r s).2.usedProxiesToday = ∅ ∧
    (getRandomProxy today r s).2.periodStartDate = today := by
  rw [getRandomProxy_snd today r s hn, checkAndReset_of_days_ge today s hn hd]
  exact ⟨rfl, rfl⟩

/-- Witness for C4 (amended): one proxy, full usage set, period started 5
days ago — the call clears the usage set and restarts the period today. -/
theorem C4_witness :
    (getRandomProxy 5 0 ⟨[⟨['h'], ['8', '0'], none⟩], ∅, {0}, 0⟩).2.usedProxiesToday = ∅ ∧
    (getRandomProxy 5 0 ⟨[⟨['h'], ['8', '0'], none⟩], ∅, {0}, 0⟩).2.periodStartDate = 5 :=
  C4_period_rollover 5 0 ⟨[⟨['h'], ['8', '0'], none⟩], ∅, {0}, 0⟩ (by decide) (by decide)

/-- Claim C9: `markUsedToday` and `markFailed` with an index out of range
for the current pool — negative, or at least the pool size (for instance a
stale index issued before `updateProxies` shrank the pool) — leave the
whole rotator state unchanged: the warning-only no-op branch. -/
theorem C9_mark_out_of_range_noop (idx : ℤ) (s : ProxyRotator)
    (h : idx < 0 ∨ (s.proxies.length : ℤ) ≤ idx) :
    markUsedToday idx s = s ∧ markFailed idx s = s := by
  have hcond : ¬(0 ≤ idx ∧ idx < (s.proxies.length : ℤ)) := by omega
  constructor
  · unfold markUsedToday
    rw [if_neg hcond]
  · unfold markFailed
    rw [if_neg hcond]

/-- Witness for C9: a stale index equal to the (shrunken) pool size, and by
the same theorem a negative index, are no-ops on a concrete state. -/
theorem C9_witness :
    markUsedToday 1 (⟨[⟨['h'], ['8', '0'], none⟩], ∅, ∅, 0⟩ : ProxyRotator) =
      ⟨[⟨['h'], ['8', '0'], none⟩], ∅, ∅, 0⟩ ∧
    markFailed 1 (⟨[⟨['h'], ['8', '0'], none⟩], ∅, ∅, 0⟩ : ProxyRotator) =
      ⟨[⟨['h'], ['8', '0'], none⟩], ∅, ∅, 0⟩ :=
  C9_mark_out_of_range_noop 1 ⟨[⟨['h'], ['8', '0'], none⟩], ∅, ∅, 0⟩ (by decide)

/-! ## Lemmas about the parser -/

theorem splitOnChar_cons (sep c : Char) (cs : Str) :
    splitOnChar sep (c :: cs) =
      match splitOnChar sep cs with
      | [] => [[]]
      | r :: rs => if c = sep then [] :: r :: rs else (c :: r) :: rs := rfl

theorem splitOnChar_ne_nil (sep : Char) (l : Str) : splitOnChar sep l ≠ [] := by
  cases l with
  | nil => simp [splitOnChar]
  | cons c cs =>
    rw [splitOnChar_cons]
    rcases h : splitOnChar sep cs with _ | ⟨r, rs⟩
    · simp
    · split_ifs <;> simp

theorem splitOnChar_no_sep (sep : Char) (l : Str) (h : ∀ c ∈ l, c ≠ sep) :
    splitOnChar sep l = [l] := by
  induction l with
  | nil => rfl
  | cons c cs ih =>
    have hc : c ≠ sep := h c (List.mem_cons_self c cs)
    have ih' := ih (fun d hd => h d (List.mem_cons_of_mem c hd))
    rw [splitOnChar_cons, ih']
    simp [hc]

theorem splitOnChar_append_sep (sep : Char) (a b : Str) (h : ∀ c ∈ a, c ≠ sep) :
    splitOnChar sep (a ++ sep :: b) = a :: splitOnChar sep b := by
  induction a with
  | nil =>
    rcases hb : splitOnChar sep b with _ | ⟨r, rs⟩
    · exact absurd hb (splitOnChar_ne_nil sep b)
    · rw [List.nil_append, splitOnChar_cons, hb]
      simp
  | cons c cs ih =>
    have hc : c ≠ sep := h c (List.mem_cons_self c cs)
    have ih' := ih (fun d hd => h d (List.mem_cons_of_mem c hd))
    rw [List.cons_append, splitOnChar_cons, ih']
    simp [hc]

/-! ## Claim C2: the format/parse round trip -/

/-- Counterexample to claim C2 as stated: for a proxy with auth credentials,
`formatProxy` emits `user:pass@host:port`, which does not start with a URL
scheme, so `parseProxy` takes the `:`-delimited branch and splits it into 3
fields, misreading it as host `user`, port `pass@host`, with no auth — not
an equivalent proxy. -/
theorem C2_counterexample :
    parseProxy (formatProxy ⟨['h'], ['8', '1'], some ⟨['u'], ['p']⟩⟩) =
      some ⟨['u'], ['p', '@', 'h'], none⟩ ∧
    parseProxy (formatProxy ⟨['h'], ['8', '1'], some ⟨['u'], ['p']⟩⟩) ≠
      some ⟨['h'], ['8', '1'], some ⟨['u'], ['p']⟩⟩ := by
  decide

/-- Claim C2, amended to the auth-free case the counterexample forces out:
for every proxy with non-empty host and port and no auth credentials —
provided host and port contain no `:` (the parser's field separator), the
formatted text is already trimmed, and it does not start with `http://` or
`https://` (which would divert it to the URL branch) — parsing the
`host:port` text produced by `formatProxy` yields back an equivalent proxy.
With credentials present the round trip fails as shown by the
counterexample. -/
theorem C2_roundtrip_no_auth (host port : Str)
    (hh : host ≠ []) (hp : port ≠ [])
    (hhc : ∀ c ∈ host, c ≠ ':') (hpc : ∀ c ∈ port, c ≠ ':')
    (htrim : trimString (formatProxy ⟨host, port, none⟩) =
      formatProxy ⟨host, port, none⟩)
    (hu1 : ¬ schemeHttp.isPrefixOf (formatProxy ⟨host, port, none⟩))
    (hu2 : ¬ schemeHttps.isPrefixOf (formatProxy ⟨host, port, none⟩)) :
    parseProxy (formatProxy ⟨host, port, none⟩) = some ⟨host, port, none⟩ := by
  have hfmt : formatProxy ⟨host, port, none⟩ = host ++ ':' :: port := by
    unfold formatProxy
    simp
  have hsplit : splitOnChar ':' (host ++ ':' :: port) = [host, port] := by
    rw [splitOnChar_append_sep ':' host port hhc, splitOnChar_no_sep ':' port hpc]
  unfold parseProxy
  rw [htrim]
  rw [if_neg (by simp [hfmt, hh])]
  rw [if_neg (by simp [hu1, hu2])]
  rw [hfmt, hsplit]
  simp [hh, hp]

/-- Witness for C2 (amended): a plain `host:port` proxy round-trips. -/
theorem C2_witness :
    parseProxy (formatProxy ⟨['1', '2'], ['8', '0'], none⟩) =
      some ⟨['1', '2'], ['8', '0'], none⟩ :=
  C2_roundtrip_no_auth ['1', '2'] ['8', '0'] (by decide) (by decide) (by decide)
    (by decide) (by decide) (by decide) (by decide)

/-! ## Lemmas about the retry loop -/

theorem bumpCalls_result (o : LoopOut) : (bumpCalls o).result = o.result := rfl

theorem getRemaining_snd (today : ℕ) (x : ProxyRotator) :
    (getRemainingProxiesCount today x).2 = checkAndResetDailyUsage today x := by
  unfold getRemainingProxiesCount
  split_ifs <;> rfl

theorem reqLoop_calls_le (transport : ℕ → TransportOutcome) (rand : ℕ → ℕ)
    (today total maxAttempts : ℕ) (s : ProxyRotator) (lastError : Option String)
    (attempt : ℕ) :
    (reqLoop transport rand today total maxAttempts s lastError attempt).calls
      ≤ maxAttempts - attempt := by
  induction s, lastError, attempt using reqLoop.induct transport rand today total maxAttempts with
  | case1 s lastError attempt h =>
    rw [reqLoop, dif_pos h]
    exact Nat.zero_le _
  | case2 s lastError attempt h s1 hsel hcond ih =>
    rw [reqLoop, dif_neg h]
    simp only [hsel, if_pos hcond]
    omega
  | case3 s lastError attempt h s1 hsel hc1 hc2 =>
    rw [reqLoop, dif_neg h]
    simp only [hsel, if_neg hc1, if_pos hc2]
    omega
  | case4 s lastError attempt h s1 hsel hc1 hc2 =>
    rw [reqLoop, dif_neg h]
    simp only [hsel, if_neg hc1, if_neg hc2]
    omega
  | case5 s lastError attempt h p i s1 hsel status ht hst =>
    rw [reqLoop, dif_neg h]
    simp only [hsel, ht, if_pos hst]
    omega
  | case6 s lastError attempt h p i s1 hsel status ht hst ih =>
    rw [reqLoop, dif_neg h]
    simp only [hsel, ht, if_neg hst, bumpCalls]
    omega
  | case7 s lastError attempt h p i s1 hsel m ht ih =>
    rw [reqLoop, dif_neg h]
    simp only [hsel, ht, bumpCalls]
    omega

theorem reqLoop_no_residual (transport : ℕ → TransportOutcome) (rand : ℕ → ℕ)
    (today total maxAttempts : ℕ) (s : ProxyRotator) (lastError : Option String)
    (attempt : ℕ) (hs : s.proxies.length = total) (ht0 : total ≠ 0) :
    ∀ msg, (reqLoop transport rand today total maxAttempts s lastError attempt).result
      ≠ ReqResult.noProxiesAvailable msg := by
  revert hs
  induction s, lastError, attempt using reqLoop.induct transport rand today total maxAttempts with
  | case1 s lastError attempt h =>
    intro hs msg
    rw [reqLoop, dif_pos h]
    simp
  | case2 s lastError attempt h s1 hsel hcond ih =>
    intro hs msg
    rw [reqLoop, dif_neg h]
    simp only [hsel, if_pos hcond]
    have hs1 : s1.proxies = s.proxies := by
      have hsnd := getRandomProxy_snd today (rand (attempt + 1)) s (by omega)
      rw [hsel] at hsnd
      have hsnd' : s1 = checkAndResetDailyUsage today s := hsnd
      rw [hsnd', checkAndReset_proxies]
    apply ih
    rw [resetFailed_proxies, getRemaining_snd, checkAndReset_proxies, hs1, hs]
  | case3 s lastError attempt h s1 hsel hc1 hc2 =>
    intro hs msg
    rw [reqLoop, dif_neg h]
    simp only [hsel, if_neg hc1, if_pos hc2]
    simp
  | case4 s lastError attempt h s1 hsel hc1 hc2 =>
    intro hs msg
    have hall : ∀ j, j < s.proxies.length → j ∈ s.failedProxies := by
      have hfst := (getRandomProxy_none_iff today (rand (attempt + 1)) s).mp
        (by rw [hsel])
      rcases hfst with h0 | h0
      · exact absurd (hs ▸ h0) ht0
      · exact h0
    have hcard : total ≤ s.failedProxies.card := by
      have hsub : Finset.range total ⊆ s.failedProxies :=
        fun j hj => hall j (hs ▸ Finset.mem_range.mp hj)
      calc total = (Finset.range total).card := (Finset.card_range _).symm
        _ ≤ s.failedProxies.card := Finset.card_le_card hsub
    have hs1f : s1.failedProxies = s.failedProxies := by
      have hsnd := getRandomProxy_snd today (rand (attempt + 1)) s (by omega)
      rw [hsel] at hsnd
      have hsnd' : s1 = checkAndResetDailyUsage today s := hsnd
      rw [hsnd', checkAndReset_failed]
    have : total ≤ (getRemainingProxiesCount today s1).2.failedProxies.card := by
      rw [getRemaining_snd, checkAndReset_failed, hs1f]
      exact hcard
    exact absurd this hc2
  | case5 s lastError attempt h p i s1 hsel status ht hst =>
    intro hs msg
    rw [reqLoop, dif_neg h]
    simp only [hsel, ht, if_pos hst]
    simp
  | case6 s lastError attempt h p i s1 hsel status ht hst ih =>
    intro hs msg
    rw [reqLoop, dif_neg h]
    simp only [hsel, ht, if_neg hst, bumpCalls_result]
    have hs1 : s1.proxies = s.proxies := by
      have hsnd := getRandomProxy_snd today (rand (attempt + 1)) s (by omega)
      rw [hsel] at hsnd
      have hsnd' : s1 = checkAndResetDailyUsage today s := hsnd
      rw [hsnd', checkAndReset_proxies]
    apply ih
    rw [markFailed_proxies, markFailed_proxies, getRemaining_snd,
      checkAndReset_proxies, hs1, hs]
  | case7 s lastError attempt h p i s1 hsel m ht ih =>
    intro hs msg
    rw [reqLoop, dif_neg h]
    simp only [hsel, ht, bumpCalls_result]
    have hs1 : s1.proxies = s.proxies := by
      have hsnd := getRandomProxy_snd today (rand (attempt + 1)) s (by omega)
      rw [hsel] at hsnd
      have hsnd' : s1 = checkAndResetDailyUsage today s := hsnd
      rw [hsnd', checkAndReset_proxies]
    apply ih
    rw [markFailed_proxies, getRemaining_snd, checkAndReset_proxies, hs1, hs]

theorem getRandomProxy_singleton (today r : ℕ) (s : ProxyRotator)
    (h1 : s.proxies.length = 1) (hf : s.failedProxies = ∅) :
    getRandomProxy today r s =
      (some ((checkAndResetDailyUsage today s).proxies.getD 0 dfltProxy, 0),
        checkAndResetDailyUsage today s) := by
  have hused := checkAndReset_used_of_len_one today s h1
  have hava : availableIdx (checkAndResetDailyUsage today s) = [0] := by
    unfold availableIdx
    simp only [checkAndReset_proxies, h1, checkAndReset_failed, hf, hused]
    decide
  have hpick : pickRandom r (availableIdx (checkAndResetDailyUsage today s)) = some 0 := by
    rw [hava]
    unfold pickRandom
    rw [dif_neg (by decide)]
    simp [Nat.mod_one]
  unfold getRandomProxy
  rw [if_neg (by omega)]
  simp only [hpick]

theorem getRandomProxy_pair_none (today r : ℕ) (s : ProxyRotator)
    (hn : s.proxies.length ≠ 0)
    (hall : ∀ j, j < s.proxies.length → j ∈ s.failedProxies) :
    getRandomProxy today r s = (none, checkAndResetDailyUsage today s) := by
  have h1 := (getRandomProxy_none_iff today r s).mpr (Or.inr hall)
  have h2 := getRandomProxy_snd today r s hn
  exact Prod.ext h1 h2

/-! ## Claims about the orchestrator -/

/-- Claim C5: for every non-empty pool of size `n` and every behaviour of the
transport collaborator, one `makeProxyRequest` call terminates (the loop is a
total function, by well-founded recursion on the attempt counter): it
performs at most `maxAttempts = n * 2` transport attempts, and whenever the
attempt counter exceeds `maxAttempts` the loop fails with the
`MaxAttemptsExceeded` error whose message carries the last observed error's
message. -/
theorem C5_attempt_bound (transport : ℕ → TransportOutcome) (rand : ℕ → ℕ)
    (today : ℕ) (s : ProxyRotator) (hn : s.proxies.length ≠ 0) :
    (makeProxyRequest transport rand today s).calls ≤ s.proxies.length * 2 ∧
    (∀ lastError attempt, s.proxies.length * 2 < attempt + 1 →
      reqLoop transport rand today s.proxies.length (s.proxies.length * 2)
          (resetFailedProxies s) lastError attempt =
        ⟨.maxAttemptsExceeded (maxAttemptsMsg (s.proxies.length * 2) lastError),
          resetFailedProxies s, 0, lastError⟩) := by
  constructor
  · unfold makeProxyRequest
    rw [if_neg (by rw [resetFailed_proxies]; exact hn)]
    rw [resetFailed_proxies]
    have hb := reqLoop_calls_le transport rand today s.proxies.length
      (s.proxies.length * 2) (resetFailedProxies s) none 0
    omega
  · intro lastError attempt hA
    rw [reqLoop, dif_pos hA]

/-- Witness for C5: a one-proxy pool stays within 2 transport attempts, and
entering the loop with the counter already past `maxAttempts = 2` throws
`MaxAttemptsExceeded`. -/
theorem C5_witness :
    (makeProxyRequest (fun _ => TransportOutcome.resp 200) (fun _ => 0) 0
        ⟨[⟨['h'], ['8', '0'], none⟩], ∅, ∅, 0⟩).calls ≤
      (⟨[⟨['h'], ['8', '0'], none⟩], ∅, ∅, 0⟩ : ProxyRotator).proxies.length * 2 ∧
    reqLoop (fun _ => TransportOutcome.resp 200) (fun _ => 0) 0
        (⟨[⟨['h'], ['8', '0'], none⟩], ∅, ∅, 0⟩ : ProxyRotator).proxies.length
        ((⟨[⟨['h'], ['8', '0'], none⟩], ∅, ∅, 0⟩ : ProxyRotator).proxies.length * 2)
        (resetFailedProxies ⟨[⟨['h'], ['8', '0'], none⟩], ∅, ∅, 0⟩) none 2 =
      ⟨.maxAttemptsExceeded (maxAttemptsMsg
          ((⟨[⟨['h'], ['8', '0'], none⟩], ∅, ∅, 0⟩ : ProxyRotator).proxies.length * 2)
          none),
        resetFailedProxies ⟨[⟨['h'], ['8', '0'], none⟩], ∅, ∅, 0⟩, 0, none⟩ :=
  ⟨(C5_attempt_bound (fun _ => TransportOutcome.resp 200) (fun _ => 0) 0
      ⟨[⟨['h'], ['8', '0'], none⟩], ∅, ∅, 0⟩ (by decide)).1,
    (C5_attempt_bound (fun _ => TransportOutcome.resp 200) (fun _ => 0) 0
      ⟨[⟨['h'], ['8', '0'], none⟩], ∅, ∅, 0⟩ (by decide)).2 none 2 (by decide)⟩

/-- Claim C6: in a retry iteration where the transport yields a response:
a status in `[200, 300)` makes the loop call `markUsedToday` on the selected
index and return that response's status together with the serving proxy's
descriptor; any other status makes it call `markFailed` on that index,
record the outcome as the last error, and continue the loop — the non-2xx
response itself is never returned. -/
theorem C6_status_classification (transport : ℕ → TransportOutcome) (rand : ℕ → ℕ)
    (today total maxAttempts : ℕ) (s s1 : ProxyRotator) (lastError : Option String)
    (attempt : ℕ) (p : Proxy) (i : ℕ) (status : ℕ)
    (hA : ¬ maxAttempts < attempt + 1)
    (hsel : getRandomProxy today (rand (attempt + 1)) s = (some (p, i), s1))
    (ht : transport (attempt + 1) = .resp status) :
    ((200 ≤ status ∧ status < 300) →
      reqLoop transport rand today total maxAttempts s lastError attempt =
        ⟨.success status (formatProxy p),
          markUsedToday (i : ℤ) (getRemainingProxiesCount today s1).2, 1, lastError⟩) ∧
    (¬(200 ≤ status ∧ status < 300) →
      reqLoop transport rand today total maxAttempts s lastError attempt =
        bumpCalls (reqLoop transport rand today total maxAttempts
          (markFailed (i : ℤ) (markFailed (i : ℤ) (getRemainingProxiesCount today s1).2))
          (some (statusFailMsg status)) (attempt + 1))) := by
  constructor
  · intro hst
    rw [reqLoop, dif_neg hA]
    simp only [hsel, ht, if_pos hst]
  · intro hst
    rw [reqLoop, dif_neg hA]
    simp only [hsel, ht, if_neg hst]

/-- Witness for C6: a one-proxy pool; a 204 response is returned with the
proxy marked used, and a 500 response marks the proxy failed, records the
status error, and continues the loop. -/
theorem C6_witness :
    (reqLoop (fun _ => TransportOutcome.resp 204) (fun _ => 0) 0 1 2
        ⟨[⟨['h'], ['8', '0'], none⟩], ∅, ∅, 0⟩ none 0 =
      ⟨.success 204 (formatProxy ⟨['h'], ['8', '0'], none⟩),
        markUsedToday ((0 : ℕ) : ℤ)
          (getRemainingProxiesCount 0 ⟨[⟨['h'], ['8', '0'], none⟩], ∅, ∅, 0⟩).2,
        1, none⟩) ∧
    (reqLoop (fun _ => TransportOutcome.resp 500) (fun _ => 0) 0 1 2
        ⟨[⟨['h'], ['8', '0'], none⟩], ∅, ∅, 0⟩ none 0 =
      bumpCalls (reqLoop (fun _ => TransportOutcome.resp 500) (fun _ => 0) 0 1 2
        (markFailed ((0 : ℕ) : ℤ) (markFailed ((0 : ℕ) : ℤ)
          (getRemainingProxiesCount 0 ⟨[⟨['h'], ['8', '0'], none⟩], ∅, ∅, 0⟩).2))
        (some (statusFailMsg 500)) (0 + 1))) :=
  ⟨(C6_status_classification (fun _ => TransportOutcome.resp 204) (fun _ => 0) 0 1 2
      ⟨[⟨['h'], ['8', '0'], none⟩], ∅, ∅, 0⟩
      ⟨[⟨['h'], ['8', '0'], none⟩], ∅, ∅, 0⟩ none 0 ⟨['h'], ['8', '0'], none⟩ 0 204
      (by decide) (by decide) rfl).1 (by decide),
    (C6_status_classification (fun _ => TransportOutcome.resp 500) (fun _ => 0) 0 1 2
      ⟨[⟨['h'], ['8', '0'], none⟩], ∅, ∅, 0⟩
      ⟨[⟨['h'], ['8', '0'], none⟩], ∅, ∅, 0⟩ none 0 ⟨['h'], ['8', '0'], none⟩ 0 500
      (by decide) (by decide) rfl).2 (by decide)⟩

/-- Claim C7: a forward call made while the pool is empty fails immediately
with the `NoProxiesConfigured` error, performing zero transport invocations
and never entering the retry loop, and that error is the call's result. -/
theorem C7_empty_pool (transport : ℕ → TransportOutcome) (rand : ℕ → ℕ)
    (today : ℕ) (s : ProxyRotator) (h : s.proxies = []) :
    makeProxyRequest transport rand today s =
      ⟨.noProxiesConfigured noProxiesConfiguredMsg, resetFailedProxies s, 0, none⟩ := by
  unfold makeProxyRequest
  rw [if_pos (by rw [resetFailed_proxies, h]; rfl)]

/-- Witness for C7: the empty pool at a concrete state. -/
theorem C7_witness :
    makeProxyRequest (fun _ => TransportOutcome.resp 200) (fun _ => 0) 0
        ⟨[], ∅, ∅, 0⟩ =
      ⟨.noProxiesConfigured noProxiesConfiguredMsg,
        resetFailedProxies ⟨[], ∅, ∅, 0⟩, 0, none⟩ :=
  C7_empty_pool (fun _ => TransportOutcome.resp 200) (fun _ => 0) 0
    ⟨[], ∅, ∅, 0⟩ rfl

/-- Claim C8: for a pool of exactly one proxy whose every transport attempt
fails, a single forward call returns the `AllProxiesFailed` error carrying
the last (here: first) transport error's message, after exactly one
transport attempt. -/
theorem C8_singleton_all_fail (transport : ℕ → TransportOutcome) (rand : ℕ → ℕ)
    (today : ℕ) (s : ProxyRotator) (em : ℕ → String)
    (hlen : s.proxies.length = 1)
    (htr : ∀ k, transport k = .throwErr (em k)) :
    (makeProxyRequest transport rand today s).result =
      .allProxiesFailed (allFailedMsg (some (em 1))) ∧
    (makeProxyRequest transport rand today s).calls = 1 := by
  have hl0 : (resetFailedProxies s).proxies.length = 1 := by
    rw [resetFailed_proxies]
    exact hlen
  have hf0 : (resetFailedProxies s).failedProxies = ∅ := rfl
  have hc0len : (checkAndResetDailyUsage today (resetFailedProxies s)).proxies.length = 1 := by
    rw [checkAndReset_proxies]
    exact hl0
  have hc0used : (checkAndResetDailyUsage today (resetFailedProxies s)).usedProxiesToday = ∅ :=
    checkAndReset_used_of_len_one today _ hl0
  have hc0failed : (checkAndResetDailyUsage today (resetFailedProxies s)).failedProxies = ∅ := by
    rw [checkAndReset_failed]
    rfl
  have hc0start : today - (checkAndResetDailyUsage today (resetFailedProxies s)).periodStartDate < 2 :=
    checkAndReset_start_recent today _ (by omega)
  have hgrp1 := getRandomProxy_singleton today (rand (0 + 1)) (resetFailedProxies s) hl0 hf0
  have hrem1 : (getRemainingProxiesCount today
      (checkAndResetDailyUsage today (resetFailedProxies s))).2 =
      checkAndResetDailyUsage today (resetFailedProxies s) := by
    rw [getRemaining_snd]
    exact checkAndReset_fixed today _ (by omega) hc0used hc0start
  have hs3len : (markFailed ((0 : ℕ) : ℤ)
      (checkAndResetDailyUsage today (resetFailedProxies s))).proxies.length = 1 := by
    rw [markFailed_proxies]
    exact hc0len
  have hs3used : (markFailed ((0 : ℕ) : ℤ)
      (checkAndResetDailyUsage today (resetFailedProxies s))).usedProxiesToday = ∅ := by
    rw [markFailed_used]
    exact hc0used
  have hs3start : today - (markFailed ((0 : ℕ) : ℤ)
      (checkAndResetDailyUsage today (resetFailedProxies s))).periodStartDate < 2 := by
    rw [markFailed_start]
    exact hc0start
  have hs3failed : (markFailed ((0 : ℕ) : ℤ)
      (checkAndResetDailyUsage today (resetFailedProxies s))).failedProxies =
      insert 0 ∅ := by
    rw [markFailed_failed_of_inbounds 0 _ (by omega), hc0failed]
  have hcr3 : checkAndResetDailyUsage today
      (markFailed ((0 : ℕ) : ℤ) (checkAndResetDailyUsage today (resetFailedProxies s))) =
      markFailed ((0 : ℕ) : ℤ) (checkAndResetDailyUsage today (resetFailedProxies s)) :=
    checkAndReset_fixed today _ (by omega) hs3used hs3start
  have hgrp2 : getRandomProxy today (rand (0 + 1 + 1))
      (markFailed ((0 : ℕ) : ℤ) (checkAndResetDailyUsage today (resetFailedProxies s))) =
      (none, markFailed ((0 : ℕ) : ℤ)
        (checkAndResetDailyUsage today (resetFailedProxies s))) := by
    have hpn := getRandomProxy_pair_none today (rand (0 + 1 + 1))
      (markFailed ((0 : ℕ) : ℤ) (checkAndResetDailyUsage today (resetFailedProxies s)))
      (by omega)
      (by
        intro j hj
        rw [hs3failed]
        rw [hs3len] at hj
        interval_cases j
        · simp)
    rw [hcr3] at hpn
    exact hpn
  have hrem2snd : (getRemainingProxiesCount today
      (markFailed ((0 : ℕ) : ℤ) (checkAndResetDailyUsage today (resetFailedProxies s)))).2 =
      markFailed ((0 : ℕ) : ℤ) (checkAndResetDailyUsage today (resetFailedProxies s)) := by
    rw [getRemaining_snd, hcr3]
  have hrem2fst : (getRemainingProxiesCount today
      (markFailed ((0 : ℕ) : ℤ) (checkAndResetDailyUsage today (resetFailedProxies s)))).1 = 1 := by
    unfold getRemainingProxiesCount
    rw [hcr3]
    rw [if_neg (by omega)]
    rw [hs3len, hs3used]
    simp
  unfold makeProxyRequest
  rw [if_neg (by omega)]
  rw [reqLoop, dif_neg (by omega)]
  simp only [hgrp1, htr (0 + 1), hrem1]
  rw [reqLoop, dif_neg (by omega)]
  simp only [hgrp2, hrem2fst, hrem2snd]
  rw [if_neg (by simp), if_pos (by rw [hs3failed]; simp [hl0])]
  constructor
  · rfl
  · rfl

/-- Witness for C8: concrete one-proxy pool, transport that always throws
the same error message. -/
theorem C8_witness :
    (makeProxyRequest (fun _ => TransportOutcome.throwErr "boom") (fun _ => 0) 0
        ⟨[⟨['h'], ['8', '0'], none⟩], ∅, ∅, 0⟩).result =
      .allProxiesFailed (allFailedMsg (some "boom")) ∧
    (makeProxyRequest (fun _ => TransportOutcome.throwErr "boom") (fun _ => 0) 0
        ⟨[⟨['h'], ['8', '0'], none⟩], ∅, ∅, 0⟩).calls = 1 :=
  C8_singleton_all_fail (fun _ => TransportOutcome.throwErr "boom") (fun _ => 0) 0
    ⟨[⟨['h'], ['8', '0'], none⟩], ∅, ∅, 0⟩ (fun _ => "boom") (by decide) (fun _ => rfl)

/-- Claim C10: `getRandomProxy` returns `None` iff the pool is empty or every
pool index is in `failedThisCycle`; consequently, for a non-empty pool the
orchestrator's residual `No proxies available` branch is unreachable: a
forward call never produces that error. -/
theorem C10_selection_none_iff (today r : ℕ) (s : ProxyRotator) :
    ((getRandomProxy today r s).1 = none ↔
      s.proxies.length = 0 ∨ ∀ j, j < s.proxies.length → j ∈ s.failedProxies) ∧
    (∀ (transport : ℕ → TransportOutcome) (rand : ℕ → ℕ) (msg : String),
      s.proxies.length ≠ 0 →
      (makeProxyRequest transport rand today s).result ≠
        ReqResult.noProxiesAvailable msg) := by
  refine ⟨getRandomProxy_none_iff today r s, ?_⟩
  intro transport rand msg hn
  unfold makeProxyRequest
  rw [if_neg (by rw [resetFailed_proxies]; exact hn)]
  exact reqLoop_no_residual transport rand today (resetFailedProxies s).proxies.length
    ((resetFailedProxies s).proxies.length * 2) (resetFailedProxies s) none 0 rfl
    (by rw [resetFailed_proxies]; exact hn) msg

/-- Witness for C10: with the single pool index failed the selection is
`None`, and a concrete all-failing forward call does not end in the residual
`No proxies available` error. -/
theorem C10_witness :
    (getRandomProxy 0 0 (⟨[⟨['h'], ['8', '0'], none⟩], {0}, ∅, 0⟩ : ProxyRotator)).1 =
      none ∧
    (makeProxyRequest (fun _ => TransportOutcome.throwErr "x") (fun _ => 0) 0
        ⟨[⟨['h'], ['8', '0'], none⟩], ∅, ∅, 0⟩).result ≠
      ReqResult.noProxiesAvailable noProxiesAvailableMsg :=
  ⟨(C10_selection_none_iff 0 0 ⟨[⟨['h'], ['8', '0'], none⟩], {0}, ∅, 0⟩).1.mpr
      (Or.inr (by decide)),
    (C10_selection_none_iff 0 0 ⟨[⟨['h'], ['8', '0'], none⟩], ∅, ∅, 0⟩).2
      (fun _ => TransportOutcome.throwErr "x") (fun _ => 0) noProxiesAvailableMsg
      (by decide)⟩
